import Mathlib

/-!
Verification of the conversation orchestration engine of the rancher-ai-agent
repository: a shallow embedding of the routing, summarization, retry and
tool-execution logic from app/services/agent (base.py, parent.py, loader.py),
together with theorems settling the specification claims about them.

External capabilities (the language model, the json library, the tool
transport, the human answering an interrupt) are modelled as oracle
parameters; everything the repository itself computes is translated
directly from the source.
-/

namespace RancherAgent

/-! ## Data model (state.py types as used by base.py and parent.py) -/

/-- A tool call request produced by the model: a name, an id and an argument
mapping. Argument values are modelled as opaque strings; the gating code only
moves them around. -/
structure ToolCall where
  name : String
  id : String
  args : List (String × String)
deriving DecidableEq, Repr

/-- A conversation message. Only AI messages carry tool call requests. -/
inductive Msg where
  | system (content : String)
  | human (content : String)
  | ai (content : String) (tool_calls : List ToolCall)
  | tool (content : String) (name : String) (tool_call_id : String)
deriving DecidableEq, Repr

/-- Python getattr of the message attribute tool_calls with default empty list. -/
def Msg.tool_calls : Msg → List ToolCall
  | .ai _ tcs => tcs
  | _ => []

/-- The running summary stored in the state: the summary text and the number
of messages already folded into it (source keys: text, msg_count). -/
structure Summary where
  text : String
  msg_count : Nat
deriving DecidableEq, Repr

/-- The selected agent recorded in the state (source keys: name, mode). -/
structure SelectedAgent where
  name : String
  mode : String
deriving DecidableEq, Repr

/-- AgentState: messages plus the optional summary and selected agent entries.
A missing dictionary entry is modelled as none. -/
structure AgentState where
  messages : List Msg
  summary : Option Summary
  selected_agent : Option SelectedAgent
deriving DecidableEq, Repr

/-! ## base.py: summary window and compaction -/

/-- Source: BaseAgentBuilder._get_messages_from_last_summary. Combines the
current summary, if any, with the messages appended since it was recorded. -/
def get_messages_from_last_summary (state : AgentState) : List Msg :=
  let summary_text := match state.summary with
    | some s => s.text
    | none => ""
  let msg_count := match state.summary with
    | some s => s.msg_count
    | none => 0
  if summary_text ≠ "" then
    Msg.system ("Conversation summary: " ++ summary_text) :: state.messages.drop msg_count
  else
    state.messages

/-- Source: BaseAgentBuilder.summarize_conversation_node. The llm argument is
the oracle for self.llm.invoke. The node returns a partial state update that
sets only the summary, so the message list is unchanged; msg_count is
recorded as the current total message count. -/
def summarize_conversation_node (llm : List Msg → String) (state : AgentState) : AgentState :=
  let summary_text := match state.summary with
    | some s => s.text
    | none => ""
  let messages := get_messages_from_last_summary state
  let summary_prompt :=
    if summary_text ≠ "" then
      "Extend the current summary by incorporating the new messages above. Maintain a concise but complete overview of the entire conversation."
    else
      "Create a summary of the conversation above:"
  let response := llm (messages ++ [Msg.human summary_prompt])
  { state with summary := some { text := response, msg_count := state.messages.length } }

/-- Source: BaseAgentBuilder.should_summarize_conversation. Returns none on an
empty message list (Python would raise IndexError); otherwise one of the
strings continue, summarize_conversation, end. The subtraction is over the
integers, as in Python. -/
def should_summarize_conversation (state : AgentState) : Option String :=
  match state.messages.getLast? with
  | none => none
  | some last_message =>
    if last_message.tool_calls ≠ [] then
      some "continue"
    else
      let last_count : Nat := match state.summary with
        | some s => s.msg_count
        | none => 0
      if (7 : Int) ≤ (state.messages.length : Int) - (last_count : Int) then
        some "summarize_conversation"
      else
        some "end"

/-! ## base.py: model invocation with bounded retry -/

/-- The error payload of an ollama ResponseError; the source inspects the
string of its error attribute. -/
structure LLMError where
  error : String
deriving DecidableEq, Repr

/-- Helper for substring search: does the pattern occur as a prefix of some
suffix of the text. -/
def infixOfAux (p : List Char) : List Char → Bool
  | [] => p.isEmpty
  | c :: rest => p.isPrefixOf (c :: rest) || infixOfAux p rest

/-- Python substring containment, the in operator on strings. -/
def strContains (hay pat : String) : Bool :=
  infixOfAux pat.toList hay.toList

/-- The classification the source applies to a ResponseError: the literal text
of a tool call parsing failure occurs inside the error string. -/
def isToolParseError (e : LLMError) : Bool :=
  strContains e.error "error parsing tool call:"

/-- Source: BaseAgentBuilder._invoke_llm_with_retry. The llm oracle receives
the message list and the attempt index (0 or 1); the result pairs the final
outcome with the number of attempts made. The loop body tries attempt 0,
retries once on a tool call parsing error, and otherwise re-raises. -/
def invoke_llm_with_retry {R : Type} (llm : List Msg → Nat → Except LLMError R)
    (messages : List Msg) : Except LLMError R × Nat :=
  match llm messages 0 with
  | .ok r => (.ok r, 1)
  | .error e =>
    if isToolParseError e then
      match llm messages 1 with
      | .ok r => (.ok r, 2)
      | .error e2 => (.error e2, 2)
    else
      (.error e, 1)

/-! ## parent.py and loader.py: routing -/

/-- Source: loader.DEFAULT_AGENT_NAME. -/
def DEFAULT_AGENT_NAME : String := "rancher"

/-- The Python str strip method with no argument: removes whitespace from
both ends of the string. -/
def pyStrip (s : String) : String :=
  String.mk (((s.toList.dropWhile Char.isWhitespace).reverse.dropWhile
    Char.isWhitespace).reverse)

/-- The mutable routing bookkeeping the source keeps on the
ParentAgentBuilder instance: fields old_agent_selected and
agent_selected_count of parent.py. -/
structure RoutingMemory where
  old_agent_selected : String
  agent_selected_count : Nat
deriving DecidableEq, Repr

/-- The class level initial values of the two instance fields. -/
def initialRoutingMemory : RoutingMemory :=
  { old_agent_selected := "", agent_selected_count := 0 }

/-- The information content of the agent-metadata wire string produced by
build_agent_metadata: agent name, selection mode, and the optional
recommended field passed through extra_metadata. -/
structure AgentMetadataEvent where
  agentName : String
  selectionMode : String
  recommended : Option String
deriving DecidableEq, Repr

/-- The observable outcome of one ParentAgentBuilder.choose_child_agent call:
the node the returned Command navigates to, the selected_agent state update,
the updated instance fields, the dispatched subagent_choice_event payload,
and whether self.llm.invoke was reached. -/
structure RouteOutcome where
  goto : String
  selected_agent : SelectedAgent
  memory : RoutingMemory
  event : AgentMetadataEvent
  llm_invoked : Bool
deriving DecidableEq, Repr

/-- Source: ParentAgentBuilder.choose_child_agent. childNames is the list of
child agent config names; llmAnswer is the oracle for the text of the routing
model response; agentOverride is the configurable agent entry, empty when
absent; mem is the current value of the two instance fields. -/
def choose_child_agent (childNames : List String) (llmAnswer : String)
    (agentOverride : String) (mem : RoutingMemory) : RouteOutcome :=
  if agentOverride ≠ "" then
    { goto := agentOverride
      selected_agent := { name := agentOverride, mode := "manual" }
      memory := { old_agent_selected := "", agent_selected_count := 0 }
      event := { agentName := agentOverride, selectionMode := "manual", recommended := none }
      llm_invoked := false }
  else
    let stripped := pyStrip llmAnswer
    let child_agent :=
      if childNames.contains stripped then stripped else DEFAULT_AGENT_NAME
    let mem' :=
      if child_agent = mem.old_agent_selected then
        { mem with agent_selected_count := mem.agent_selected_count + 1 }
      else
        { old_agent_selected := child_agent, agent_selected_count := 1 }
    let recommended :=
      if 3 ≤ mem'.agent_selected_count then some child_agent else none
    { goto := child_agent
      selected_agent := { name := child_agent, mode := "auto" }
      memory := mem'
      event := { agentName := child_agent, selectionMode := "auto", recommended := recommended }
      llm_invoked := true }

/-- A sequence of automatic routing turns through one shared
ParentAgentBuilder instance. Each turn is tagged with the id of the
conversation it belongs to and carries the routing model answer for that
turn; the instance fields are threaded through all turns because the source
stores them on the builder object, not in per conversation state. The
conversation tag is never read by the routing code. -/
def runSharedRouter (childNames : List String) (mem : RoutingMemory) :
    List (String × String) → List (String × RouteOutcome)
  | [] => []
  | (conv, answer) :: rest =>
    let r := choose_child_agent childNames answer "" mem
    (conv, r) :: runSharedRouter childNames r.memory rest

/-! ## base.py: tool invocation gateway -/

/-- loader.ToolActionType. -/
inductive ToolActionType where
  | CREATE
  | UPDATE
  | DELETE
deriving DecidableEq, Repr

/-- loader.HumanValidationTool: a rule naming a gated tool and its action kind. -/
structure HumanValidationTool where
  name : String
  type : ToolActionType
deriving DecidableEq, Repr

/-- The Python exceptions the embedded code can raise. -/
inductive PyError where
  | keyError (key : String)
  | typeError
  | attributeError (msg : String)
  | indexError
deriving DecidableEq, Repr

/-- Python dictionary subscripting on the argument mapping: raises KeyError
when the key is missing. -/
def pyDictGet (args : List (String × String)) (key : String) : Except PyError String :=
  match args.lookup key with
  | some v => .ok v
  | none => .error (.keyError key)

/-- The information content of the confirmation-response wire string built by
create_confirmation_response. -/
structure ConfirmationPayload where
  payload : String
  type : String
  name : String
  kind : String
  cluster : String
  targetNamespace : String
deriving DecidableEq, Repr

/-- Source: should_interrupt of base.py. Scans the human validation rules for
the first one whose name equals the tool call name; a CREATE rule renders a
confirmation payload from the resource argument, an UPDATE rule from the
patch argument, and any other action kind is logged and treated as no gate.
Returns none when no interrupt is needed. Missing arguments raise KeyError,
in the evaluation order of the source. -/
def should_interrupt (human_validation_tools : List HumanValidationTool)
    (tool_call : ToolCall) : Except PyError (Option ConfirmationPayload) :=
  match human_validation_tools.find? (fun t => t.name == tool_call.name) with
  | none => .ok none
  | some rule =>
    match rule.type with
    | .CREATE => do
      let payload ← pyDictGet tool_call.args "resource"
      let rname ← pyDictGet tool_call.args "name"
      let rkind ← pyDictGet tool_call.args "kind"
      let rcluster ← pyDictGet tool_call.args "cluster"
      let rns ← pyDictGet tool_call.args "namespace"
      .ok (some { payload := payload, type := "create", name := rname, kind := rkind,
                  cluster := rcluster, targetNamespace := rns })
    | .UPDATE => do
      let payload ← pyDictGet tool_call.args "patch"
      let rname ← pyDictGet tool_call.args "name"
      let rkind ← pyDictGet tool_call.args "kind"
      let rcluster ← pyDictGet tool_call.args "cluster"
      let rns ← pyDictGet tool_call.args "namespace"
      .ok (some { payload := payload, type := "update", name := rname, kind := rkind,
                  cluster := rcluster, targetNamespace := rns })
    | .DELETE => .ok none

/-- A parsed JSON value, the result of json.loads. Numbers are abstracted to
integers; no claim depends on numeric content. -/
inductive JVal where
  | jnull
  | jbool (b : Bool)
  | jnum (n : Int)
  | jstr (s : String)
  | jarr (elems : List JVal)
  | jobj (fields : List (String × JVal))
deriving Repr

/-- A Python value that can appear inside the list form of a raw tool result:
a string, a dictionary, or anything else. -/
inductive PyVal where
  | pstr (s : String)
  | pdict (fields : List (String × PyVal))
  | pother
deriving Repr

/-- A raw tool result as received from tool ainvoke: either a string or a
list. -/
inductive RawToolResult where
  | rstr (s : String)
  | rlist (items : List PyVal)
deriving Repr

/-- A custom event dispatched through dispatch_custom_event: the
subagent_choice_event metadata, the ui_context side channel note (carrying
the rendered mcp-response string), or one dock_link event per entry iterated
from the docLinks value. -/
inductive Event where
  | subagent_choice (metadata : AgentMetadataEvent)
  | ui_context (payload : String)
  | dock_link (link : JVal)
deriving Repr

/-- The value process_tool_result hands back as model facing content: a
string, a non string JSON scalar returned as is, a non string unwrapped text
value, or the original list passed through on a TypeError. -/
inductive PyOutVal where
  | fromStr (s : String)
  | fromJson (v : JVal)
  | fromPy (v : PyVal)
  | fromList (items : List PyVal)
deriving Repr

/-- Source: convert_to_string_if_needed of base.py, with json.dumps supplied
as an oracle: dictionaries and lists are lowered to their JSON string, every
other value is returned unchanged. -/
def convert_to_string_if_needed (dumps : JVal → String) : JVal → PyOutVal
  | .jobj fields => .fromStr (dumps (.jobj fields))
  | .jarr elems => .fromStr (dumps (.jarr elems))
  | .jstr s => .fromStr s
  | v => .fromJson v

/-- Python iteration over a JSON value, used by the for loop over the
docLinks entry: a list yields its elements, a string yields its one character
substrings, a dictionary yields its keys, and every other value raises
TypeError. -/
def pyIter : JVal → Except PyError (List JVal)
  | .jarr elems => .ok elems
  | .jstr s => .ok (s.toList.map (fun c => JVal.jstr (String.singleton c)))
  | .jobj fields => .ok (fields.map (fun kv => JVal.jstr kv.1))
  | _ => .error .typeError

/-- Python membership test of a string key against a parsed JSON value: key
lookup on a dictionary, element equality on a list, substring containment on
a string, TypeError otherwise. -/
def jvalHasStrKey (key : String) : JVal → Except PyError Bool
  | .jobj fields => .ok (fields.lookup key).isSome
  | .jarr elems => .ok (elems.any (fun v => match v with
      | .jstr s => s == key
      | _ => false))
  | .jstr s => .ok (strContains s key)
  | _ => .error .typeError

/-- The triple returned by process_tool_result together with the events it
dispatched on the way: the model facing content, the optional mcp response
side channel string, and the dispatched events in order. -/
structure ProcResult where
  content : PyOutVal
  mcp_response : Option String
  events : List Event
deriving Repr

/-- The json.loads branch of process_tool_result, applied after the optional
list unwrapping, on a string input. parse and dumps are the oracles for
json.loads and json.dumps; a parse result of none is a JSONDecodeError.
Mirrors the source: JSONDecodeError and TypeError return the raw string with
whatever mcp response was already set, while the attribute access json_result
dot get on a non dictionary raises AttributeError, which the source does not
catch. -/
def process_tool_string (parse : String → Option JVal) (dumps : JVal → String)
    (s : String) : Except PyError ProcResult :=
  match parse s with
  | none => .ok { content := .fromStr s, mcp_response := none, events := [] }
  | some j =>
    match j with
    | .jobj fields =>
      let uiPart : Option String × List Event :=
        match fields.lookup "uiContext" with
        | some u =>
          let rendered := "<mcp-response>" ++ dumps u ++ "</mcp-response>"
          (some rendered, [Event.ui_context rendered])
        | none => (none, [])
      (match fields.lookup "docLinks" with
       | some links =>
         (match pyIter links with
          | .error _ =>
            .ok { content := .fromStr s, mcp_response := uiPart.1, events := uiPart.2 }
          | .ok linkList =>
            .ok { content := convert_to_string_if_needed dumps
                    ((fields.lookup "llm").getD (.jobj fields))
                  mcp_response := uiPart.1
                  events := uiPart.2 ++ linkList.map Event.dock_link })
       | none =>
         .ok { content := convert_to_string_if_needed dumps
                 ((fields.lookup "llm").getD (.jobj fields))
               mcp_response := uiPart.1
               events := uiPart.2 })
    | _ =>
      match jvalHasStrKey "uiContext" j with
      | .error _ =>
        .ok { content := .fromStr s, mcp_response := none, events := [] }
      | .ok true =>
        .ok { content := .fromStr s, mcp_response := none, events := [] }
      | .ok false =>
        match jvalHasStrKey "docLinks" j with
        | .error _ =>
          .ok { content := .fromStr s, mcp_response := none, events := [] }
        | .ok true =>
          .ok { content := .fromStr s, mcp_response := none, events := [] }
        | .ok false =>
          .error (.attributeError "object has no attribute get")

/-- Source: process_tool_result of base.py. A non empty list whose first
element is a dictionary with a text entry is unwrapped to that entry before
parsing; a list that does not match that shape, or an unwrapped non string
text value, makes json.loads raise TypeError, which the source catches by
returning the current value unchanged. -/
def process_tool_result (parse : String → Option JVal) (dumps : JVal → String) :
    RawToolResult → Except PyError ProcResult
  | .rstr s => process_tool_string parse dumps s
  | .rlist items =>
    match items with
    | .pdict fields :: _ =>
      (match fields.lookup "text" with
       | some (.pstr s) => process_tool_string parse dumps s
       | some v => .ok { content := .fromPy v, mcp_response := none, events := [] }
       | none => .ok { content := .fromList items, mcp_response := none, events := [] })
    | _ => .ok { content := .fromList items, mcp_response := none, events := [] }

/-- Source: handle_interrupt of base.py. ans is the oracle for the human
responses delivered to langgraph interrupt calls, indexed by how many
interrupts have fired so far in this node execution; idx is that counter.
Returns the should continue flag, the interrupt message if one was
triggered, the dispatched events, and the updated interrupt counter. -/
def handle_interrupt (human_validation_tools : List HumanValidationTool)
    (tool_call : ToolCall) (selected_agent : Option SelectedAgent)
    (ans : Nat → String) (idx : Nat) :
    Except PyError (Bool × Option ConfirmationPayload × List Event × Nat) :=
  match should_interrupt human_validation_tools tool_call with
  | .error e => .error e
  | .ok none => .ok (true, none, [], idx)
  | .ok (some interrupt_message) =>
    let response := ans idx
    if response ≠ "yes" then
      .ok (false, some interrupt_message, [], idx + 1)
    else
      match selected_agent with
      | some sa =>
        .ok (true, some interrupt_message,
             [Event.subagent_choice { agentName := sa.name, selectionMode := sa.mode,
                                      recommended := none }], idx + 1)
      | none => .ok (true, some interrupt_message, [], idx + 1)

/-- Source: the INTERRUPT_CANCEL_MESSAGE constant of base.py. -/
def INTERRUPT_CANCEL_MESSAGE : String := "tool execution cancelled by the user"

/-- The Python str rendering of an embedded exception, used when tool_node
interpolates an unexpected exception into a message. The exact rendering is
irrelevant to every claim. -/
def pyErrorText : PyError → String
  | .keyError key => key
  | .typeError => "TypeError"
  | .attributeError msg => msg
  | .indexError => "IndexError"

/-- The outcome of invoking one external tool capability: a raw result, a
ToolException with its text, or any other exception with its text. -/
inductive ToolOutcome where
  | success (result : RawToolResult)
  | toolError (msg : String)
  | unexpected (msg : String)
deriving Repr

/-- A ToolMessage as assembled by tool_node: content, tool name, tool call
id, and the additional kwargs entries the source sets. -/
structure ToolMsg where
  content : PyOutVal
  name : String
  tool_call_id : String
  request_id : String
  selected_agent : Option SelectedAgent
  confirmation : Option Bool
  interrupt_message : Option ConfirmationPayload
  mcp_response : Option String
deriving Repr

/-- The closure context of one tool_node execution: the agent configuration
rules, the external tool capability, the json oracles, the human answer
oracle, and the request scoped configuration values. -/
structure ToolEnv where
  human_validation_tools : List HumanValidationTool
  exec : String → List (String × String) → ToolOutcome
  parse : String → Option JVal
  dumps : JVal → String
  ans : Nat → String
  request_id : String
  selected_agent : Option SelectedAgent

/-- One recorded invocation of the external tool capability: the tool name
and the arguments it was invoked with. -/
abbrev Invocation := String × List (String × String)

/-- What one tool_node execution produced: the returned messages update, the
events dispatched along the way, and the log of tool capability
invocations. -/
structure ToolNodeResult where
  messages : List ToolMsg
  events : List Event
  invocations : List Invocation
deriving Repr

/-- The for loop body of tool_node, processing the remaining tool calls.
outputs, events and invs accumulate the ToolMessages built so far, the
dispatched events and the tool capability invocations; idx counts interrupts
fired so far. A cancelled gate, a ToolException or an unexpected exception
returns a single message list, discarding outputs, exactly as the early
return statements of the source do. -/
def runToolCalls (env : ToolEnv) :
    List ToolCall → Nat → List ToolMsg → List Event → List Invocation →
    Except PyError ToolNodeResult
  | [], _, outputs, events, invs => .ok { messages := outputs, events := events, invocations := invs }
  | tc :: rest, idx, outputs, events, invs =>
    match handle_interrupt env.human_validation_tools tc env.selected_agent env.ans idx with
    | .error e => .error e
    | .ok (should_continue, interrupt_message, hEvents, idx') =>
      if should_continue = false then
        .ok { messages := [{ content := .fromStr INTERRUPT_CANCEL_MESSAGE
                             name := tc.name
                             tool_call_id := tc.id
                             request_id := env.request_id
                             selected_agent := env.selected_agent
                             confirmation := some false
                             interrupt_message := interrupt_message
                             mcp_response := none }]
              events := events ++ hEvents
              invocations := invs }
      else
        let confirmation := if interrupt_message.isSome then some true else none
        let invs' := invs ++ [(tc.name, tc.args)]
        match env.exec tc.name tc.args with
        | .success raw =>
          (match process_tool_result env.parse env.dumps raw with
           | .ok pr =>
             runToolCalls env rest idx'
               (outputs ++ [{ content := pr.content
                              name := tc.name
                              tool_call_id := tc.id
                              request_id := env.request_id
                              selected_agent := env.selected_agent
                              confirmation := confirmation
                              interrupt_message := interrupt_message
                              mcp_response := pr.mcp_response }])
               (events ++ hEvents ++ pr.events) invs'
           | .error e =>
             .ok { messages := [{ content := .fromStr ("unexpected error during tool call: " ++ pyErrorText e)
                                  name := tc.name
                                  tool_call_id := tc.id
                                  request_id := env.request_id
                                  selected_agent := env.selected_agent
                                  confirmation := confirmation
                                  interrupt_message := interrupt_message
                                  mcp_response := none }]
                   events := events ++ hEvents
                   invocations := invs' })
        | .toolError msg =>
          .ok { messages := [{ content := .fromStr msg
                               name := tc.name
                               tool_call_id := tc.id
                               request_id := env.request_id
                               selected_agent := env.selected_agent
                               confirmation := confirmation
                               interrupt_message := interrupt_message
                               mcp_response := none }]
                events := events ++ hEvents
                invocations := invs' }
        | .unexpected msg =>
          .ok { messages := [{ content := .fromStr ("unexpected error during tool call: " ++ msg)
                               name := tc.name
                               tool_call_id := tc.id
                               request_id := env.request_id
                               selected_agent := env.selected_agent
                               confirmation := confirmation
                               interrupt_message := interrupt_message
                               mcp_response := none }]
                events := events ++ hEvents
                invocations := invs' }

/-- Source: BaseAgentBuilder.tool_node. Reads the tool calls of the last
message and processes them sequentially with empty accumulators. -/
def tool_node (env : ToolEnv) (state : AgentState) : Except PyError ToolNodeResult :=
  match state.messages.getLast? with
  | none => .error .indexError
  | some last_message => runToolCalls env last_message.tool_calls 0 [] [] []

/-! ## Demonstration oracles used by witnesses -/

/-- A model oracle whose first attempt raises a tool call parsing error and
whose second attempt succeeds. -/
def demoRetryLlm : List Msg → Nat → Except LLMError Nat :=
  fun _ attempt =>
    if attempt = 0 then
      .error { error := "registry response: error parsing tool call: invalid json" }
    else
      .ok 7

/-- Arguments of a gated create tool call. -/
def demoGateArgs : List (String × String) :=
  [("resource", "apiVersion: v1"), ("name", "web"), ("kind", "Deployment"),
   ("cluster", "local"), ("namespace", "default")]

/-- A tool call matching the create validation rule below. -/
def demoGateCall : ToolCall :=
  { name := "createKubernetesResource", id := "call-1", args := demoGateArgs }

/-- A single create validation rule. -/
def demoGateRules : List HumanValidationTool :=
  [{ name := "createKubernetesResource", type := .CREATE }]

/-- The confirmation payload rendered for demoGateCall. -/
def demoGatePayload : ConfirmationPayload :=
  { payload := "apiVersion: v1", type := "create", name := "web", kind := "Deployment",
    cluster := "local", targetNamespace := "default" }

/-- A gateway context whose human always answers no. -/
def demoGateEnvNo : ToolEnv :=
  { human_validation_tools := demoGateRules
    exec := fun _ _ => .success (.rstr "done")
    parse := fun _ => none
    dumps := fun _ => ""
    ans := fun _ => "no"
    request_id := "req-1"
    selected_agent := none }

/-- The same gateway context with a human who answers yes. -/
def demoGateEnvYes : ToolEnv :=
  { demoGateEnvNo with ans := fun _ => "yes" }

/-- A gateway context with no gating rules and a tool capability that fails
with a ToolException exactly for the tool named failingTool. -/
def demoBatchEnv : ToolEnv :=
  { human_validation_tools := []
    exec := fun toolName _ =>
      if toolName = "failingTool" then .toolError "boom" else .success (.rstr "fine")
    parse := fun _ => none
    dumps := fun _ => ""
    ans := fun _ => "yes"
    request_id := "req-2"
    selected_agent := none }

/-- An ungated call that succeeds under demoBatchEnv. -/
def demoOkCall : ToolCall := { name := "workingTool", id := "c1", args := [] }

/-- An ungated call that raises a ToolException under demoBatchEnv. -/
def demoFailCall : ToolCall := { name := "failingTool", id := "c2", args := [] }

/-- The ToolMessage produced for demoOkCall before the batch short
circuits. -/
def demoOkMsg : ToolMsg :=
  { content := .fromStr "fine", name := "workingTool", tool_call_id := "c1",
    request_id := "req-2", selected_agent := none, confirmation := none,
    interrupt_message := none, mcp_response := none }

/-- The object a demonstration json.loads oracle returns for the string
payload. -/
def demoParsedObj : List (String × JVal) :=
  [("uiContext", .jobj []), ("llm", .jstr "hello"),
   ("docLinks", .jarr [.jstr "l1", .jstr "l2"])]

/-- A demonstration json.loads oracle: only the string payload parses. -/
def demoParse : String → Option JVal :=
  fun s => if s = "payload" then some (.jobj demoParsedObj) else none

/-- A demonstration json.dumps oracle. -/
def demoDumps : JVal → String := fun _ => "J"

end RancherAgent

namespace RancherAgent

/-! ## Claim theorems -/

/-- Claim C3: when the last message of the conversation carries no tool call
requests, summarization is triggered if and only if the current message count
minus the covered count recorded in the summary is at least 7. -/
theorem summarize_trigger_threshold (state : AgentState) (last_message : Msg)
    (hlast : state.messages.getLast? = some last_message)
    (hnotool : last_message.tool_calls = []) :
    (should_summarize_conversation state = some "summarize_conversation" ↔
      (7 : Int) ≤ (state.messages.length : Int) -
        ((match state.summary with | some s => s.msg_count | none => 0 : Nat) : Int)) := by
  unfold should_summarize_conversation
  rw [hlast]
  simp only [hnotool, ne_eq, not_true_eq_false, if_false, reduceIte]
  by_cases h : (7 : Int) ≤ (state.messages.length : Int) -
      ((match state.summary with | some s => s.msg_count | none => 0 : Nat) : Int)
  · simp [h]
  · simp [h]

/-- Witness for claim C3: with no summary recorded, a batch of 7 messages
triggers summarization and a batch of 6 does not. -/
theorem summarize_trigger_threshold_witness :
    should_summarize_conversation
        { messages := List.replicate 7 (Msg.human "m"), summary := none, selected_agent := none } =
      some "summarize_conversation" ∧
    should_summarize_conversation
        { messages := List.replicate 6 (Msg.human "m"), summary := none, selected_agent := none } =
      some "end" := by
  constructor
  · exact (summarize_trigger_threshold
      { messages := List.replicate 7 (Msg.human "m"), summary := none, selected_agent := none }
      (Msg.human "m") (by decide) (by decide)).mpr (by decide)
  · decide

/-- Claim C9: applying compaction twice without new messages makes no
progress; both applications record the same covered count, the current total
message count. -/
theorem compaction_idempotent (llm : List Msg → String) (state : AgentState) :
    (summarize_conversation_node llm (summarize_conversation_node llm state)).summary.map
        Summary.msg_count = some state.messages.length ∧
    (summarize_conversation_node llm state).summary.map
        Summary.msg_count = some state.messages.length := by
  exact ⟨rfl, rfl⟩

/-- Claim C4: a model call that fails with a tool call parsing error is
retried exactly once with identical input, so the second outcome is returned
unmodified; any other failure is surfaced unmodified after one attempt; a
success is returned after one attempt; no call makes more than two
attempts. -/
theorem llm_retry_policy {R : Type} (llm : List Msg → Nat → Except LLMError R)
    (messages : List Msg) :
    (invoke_llm_with_retry llm messages).2 ≤ 2 ∧
    (∀ r, llm messages 0 = .ok r →
      invoke_llm_with_retry llm messages = (.ok r, 1)) ∧
    (∀ e, llm messages 0 = .error e → isToolParseError e = false →
      invoke_llm_with_retry llm messages = (.error e, 1)) ∧
    (∀ e, llm messages 0 = .error e → isToolParseError e = true →
      invoke_llm_with_retry llm messages = (llm messages 1, 2)) := by
  refine ⟨?_, ?_, ?_, ?_⟩
  · unfold invoke_llm_with_retry
    cases h0 : llm messages 0 with
    | ok r => simp
    | error e =>
      by_cases hp : isToolParseError e
      · cases h1 : llm messages 1 <;> simp [hp]
      · simp [hp]
  · intro r h0
    unfold invoke_llm_with_retry
    rw [h0]
  · intro e h0 hp
    unfold invoke_llm_with_retry
    rw [h0]
    simp [hp]
  · intro e h0 hp
    unfold invoke_llm_with_retry
    rw [h0]
    cases h1 : llm messages 1 <;> simp [hp, h1]

/-- Witness for claim C4: an oracle failing parse on attempt 0 and
succeeding on attempt 1 yields the successful result in two attempts. -/
theorem llm_retry_policy_witness :
    invoke_llm_with_retry demoRetryLlm [] = (.ok 7, 2) := by
  have h := (llm_retry_policy demoRetryLlm []).2.2.2
    { error := "registry response: error parsing tool call: invalid json" } rfl (by decide)
  rw [h]
  rfl

/-- Claim C5: in automatic routing the consecutive selection count increments
when the newly selected agent equals the previous selection and resets to 1
otherwise, and the recommended hint naming the selected agent is attached to
the telemetry event exactly when the updated count is at least 3; in the
four turn scenario of the specification the hints are absent, absent,
present, absent with streaks 1, 2, 3, 1. -/
theorem routing_stickiness (childNames : List String) (llmAnswer : String)
    (mem : RoutingMemory) :
    ((choose_child_agent childNames llmAnswer "" mem).memory.agent_selected_count =
      (if (choose_child_agent childNames llmAnswer "" mem).goto = mem.old_agent_selected
       then mem.agent_selected_count + 1 else 1)) ∧
    ((choose_child_agent childNames llmAnswer "" mem).memory.old_agent_selected =
      (choose_child_agent childNames llmAnswer "" mem).goto) ∧
    ((choose_child_agent childNames llmAnswer "" mem).event.recommended =
      (if 3 ≤ (choose_child_agent childNames llmAnswer "" mem).memory.agent_selected_count
       then some (choose_child_agent childNames llmAnswer "" mem).goto else none)) ∧
    ((runSharedRouter ["alpha", "beta"] initialRoutingMemory
        [("c", "alpha"), ("c", "alpha"), ("c", "alpha"), ("c", "beta")]).map
      (fun p => (p.2.memory.agent_selected_count, p.2.event.recommended)) =
      [(1, none), (2, none), (3, some "alpha"), (1, none)]) := by
  refine ⟨?_, ?_, ?_, by decide⟩ <;>
  · by_cases h : (if pyStrip llmAnswer ∈ childNames then pyStrip llmAnswer
        else DEFAULT_AGENT_NAME) = mem.old_agent_selected
    · simp [choose_child_agent, h]
    · simp [choose_child_agent, h]

/-- Claim C6: a nonempty per turn override selects that agent unconditionally
with selection mode manual, resets the routing memory, emits a manual
telemetry event, does not reach the model, and the outcome is independent of
the model answer. -/
theorem manual_override_selection (childNames : List String) (llmAnswer : String)
    (agentOverride : String) (mem : RoutingMemory) (h : agentOverride ≠ "") :
    (choose_child_agent childNames llmAnswer agentOverride mem =
      { goto := agentOverride
        selected_agent := { name := agentOverride, mode := "manual" }
        memory := { old_agent_selected := "", agent_selected_count := 0 }
        event := { agentName := agentOverride, selectionMode := "manual", recommended := none }
        llm_invoked := false }) ∧
    (∀ otherAnswer : String,
      choose_child_agent childNames otherAnswer agentOverride mem =
        choose_child_agent childNames llmAnswer agentOverride mem) := by
  constructor
  · simp [choose_child_agent, h]
  · intro otherAnswer
    simp [choose_child_agent, h]

/-- Witness for claim C6: a concrete override always wins with mode manual,
a reset memory, no model invocation. -/
theorem manual_override_selection_witness :
    choose_child_agent ["alpha", "beta"] "beta" "fleet" { old_agent_selected := "alpha", agent_selected_count := 5 } =
      { goto := "fleet"
        selected_agent := { name := "fleet", mode := "manual" }
        memory := { old_agent_selected := "", agent_selected_count := 0 }
        event := { agentName := "fleet", selectionMode := "manual", recommended := none }
        llm_invoked := false } :=
  (manual_override_selection ["alpha", "beta"] "beta" "fleet"
    { old_agent_selected := "alpha", agent_selected_count := 5 } (by decide)).1

/-- Claim C7: in automatic routing an answer whose stripped text is not a
candidate name is replaced by the fallback agent name, which is the literal
rancher, so the selected agent is always a candidate name or the
fallback. -/
theorem routing_fallback_never_invalid (childNames : List String) (llmAnswer : String)
    (mem : RoutingMemory) :
    (pyStrip llmAnswer ∉ childNames →
      (choose_child_agent childNames llmAnswer "" mem).goto = DEFAULT_AGENT_NAME) ∧
    ((choose_child_agent childNames llmAnswer "" mem).goto ∈ childNames ∨
      (choose_child_agent childNames llmAnswer "" mem).goto = DEFAULT_AGENT_NAME) ∧
    DEFAULT_AGENT_NAME = "rancher" := by
  refine ⟨?_, ?_, rfl⟩
  · intro hvalid
    simp [choose_child_agent, hvalid]
  · by_cases hvalid : pyStrip llmAnswer ∈ childNames
    · left
      simp [choose_child_agent, hvalid]
    · right
      simp [choose_child_agent, hvalid]

/-- Witness for claim C7: a model answer outside the candidate set selects
the literal fallback name rancher. -/
theorem routing_fallback_never_invalid_witness :
    (choose_child_agent ["fleet", "longhorn"] " bogus " "" initialRoutingMemory).goto =
      "rancher" := by
  have h := (routing_fallback_never_invalid ["fleet", "longhorn"] " bogus "
    initialRoutingMemory).1 (by decide)
  rw [h]
  rfl

/-- Claim C2 fails on the code: the routing memory lives on the shared
builder instance, so the first automatic decision of conversation B reaches
streak 3 and carries a recommended hint after conversation A selected the
same agent twice, while the identical decision of conversation B alone
yields streak 1 and no hint. -/
theorem routing_memory_leaks_across_conversations :
    ((runSharedRouter ["rancher", "fleet"] initialRoutingMemory
        [("A", "rancher"), ("A", "rancher"), ("B", "rancher")]).map
      (fun p => (p.1, p.2.memory.agent_selected_count, p.2.event.recommended)) =
      [("A", 1, none), ("A", 2, none), ("B", 3, some "rancher")]) ∧
    ((runSharedRouter ["rancher", "fleet"] initialRoutingMemory
        [("B", "rancher")]).map
      (fun p => (p.1, p.2.memory.agent_selected_count, p.2.event.recommended)) =
      [("B", 1, none)]) := by
  decide

/-- Claim C1: for a tool call that triggers a human validation gate, any
answer other than the literal yes leaves the tool unexecuted and returns the
single cancellation sentinel ToolMessage, processing no further calls of the
batch; the answer yes leads to exactly one invocation of the tool capability
for that call. -/
theorem human_gate_enforcement (env : ToolEnv) (tc : ToolCall) (idx : Nat)
    (outputs : List ToolMsg) (events : List Event) (invs : List Invocation)
    (m : ConfirmationPayload)
    (hgate : should_interrupt env.human_validation_tools tc = .ok (some m)) :
    (env.ans idx ≠ "yes" →
      ∀ rest : List ToolCall,
        runToolCalls env (tc :: rest) idx outputs events invs =
          .ok { messages := [{ content := .fromStr "tool execution cancelled by the user"
                               name := tc.name
                               tool_call_id := tc.id
                               request_id := env.request_id
                               selected_agent := env.selected_agent
                               confirmation := some false
                               interrupt_message := some m
                               mcp_response := none }]
                events := events
                invocations := invs }) ∧
    (env.ans idx = "yes" →
      Except.map ToolNodeResult.invocations (runToolCalls env [tc] idx outputs events invs) =
        .ok (invs ++ [(tc.name, tc.args)])) := by
  constructor
  · intro hans rest
    have hh : handle_interrupt env.human_validation_tools tc env.selected_agent env.ans idx =
        .ok (false, some m, [], idx + 1) := by
      unfold handle_interrupt
      rw [hgate]
      simp [hans]
    simp only [runToolCalls, hh]
    simp [INTERRUPT_CANCEL_MESSAGE]
  · intro hans
    have hh : ∃ hEvents,
        handle_interrupt env.human_validation_tools tc env.selected_agent env.ans idx =
          .ok (true, some m, hEvents, idx + 1) := by
      unfold handle_interrupt
      rw [hgate]
      cases env.selected_agent with
      | none => exact ⟨[], by simp [hans]⟩
      | some sa =>
        exact ⟨[Event.subagent_choice { agentName := sa.name, selectionMode := sa.mode,
                                        recommended := none }], by simp [hans]⟩
    obtain ⟨hEvents, hh⟩ := hh
    cases hexec : env.exec tc.name tc.args with
    | success raw =>
      cases hpr : process_tool_result env.parse env.dumps raw with
      | ok pr => simp [runToolCalls, hh, hexec, hpr, Except.map]
      | error e => simp [runToolCalls, hh, hexec, hpr, Except.map]
    | toolError s => simp [runToolCalls, hh, hexec, Except.map]
    | unexpected s => simp [runToolCalls, hh, hexec, Except.map]

/-- Witness for claim C1: under a create rule, the answer no yields the
cancellation sentinel with no invocation, and the answer yes yields exactly
one invocation of the gated tool. -/
theorem human_gate_enforcement_witness :
    (runToolCalls demoGateEnvNo [demoGateCall] 0 [] [] [] =
      .ok { messages := [{ content := .fromStr "tool execution cancelled by the user"
                           name := "createKubernetesResource"
                           tool_call_id := "call-1"
                           request_id := "req-1"
                           selected_agent := none
                           confirmation := some false
                           interrupt_message := some demoGatePayload
                           mcp_response := none }]
            events := []
            invocations := [] }) ∧
    (Except.map ToolNodeResult.invocations (runToolCalls demoGateEnvYes [demoGateCall] 0 [] [] []) =
      .ok [("createKubernetesResource", demoGateArgs)]) := by
  constructor
  · exact (human_gate_enforcement demoGateEnvNo demoGateCall 0 [] [] []
      demoGatePayload rfl).1 (by decide) []
  · exact (human_gate_enforcement demoGateEnvYes demoGateCall 0 [] [] []
      demoGatePayload rfl).2 rfl

/-- Claim C10: a batch that short circuits, through a cancelled gate, a
ToolException or an unexpected exception, returns only the single
cancellation or error ToolMessage; the ToolMessages accumulated for earlier
successful calls of the same batch are discarded. -/
theorem batch_short_circuit_discards (env : ToolEnv) (tc : ToolCall) (rest : List ToolCall)
    (idx : Nat) (outputs : List ToolMsg) (events : List Event) (invs : List Invocation)
    (im : Option ConfirmationPayload) (hEvents : List Event) (idx2 : Nat) :
    (handle_interrupt env.human_validation_tools tc env.selected_agent env.ans idx =
        .ok (false, im, hEvents, idx2) →
      runToolCalls env (tc :: rest) idx outputs events invs =
        .ok { messages := [{ content := .fromStr INTERRUPT_CANCEL_MESSAGE
                             name := tc.name
                             tool_call_id := tc.id
                             request_id := env.request_id
                             selected_agent := env.selected_agent
                             confirmation := some false
                             interrupt_message := im
                             mcp_response := none }]
              events := events ++ hEvents
              invocations := invs }) ∧
    (∀ s, handle_interrupt env.human_validation_tools tc env.selected_agent env.ans idx =
        .ok (true, im, hEvents, idx2) →
      env.exec tc.name tc.args = .toolError s →
      runToolCalls env (tc :: rest) idx outputs events invs =
        .ok { messages := [{ content := .fromStr s
                             name := tc.name
                             tool_call_id := tc.id
                             request_id := env.request_id
                             selected_agent := env.selected_agent
                             confirmation := if im.isSome then some true else none
                             interrupt_message := im
                             mcp_response := none }]
              events := events ++ hEvents
              invocations := invs ++ [(tc.name, tc.args)] }) ∧
    (∀ s, handle_interrupt env.human_validation_tools tc env.selected_agent env.ans idx =
        .ok (true, im, hEvents, idx2) →
      env.exec tc.name tc.args = .unexpected s →
      runToolCalls env (tc :: rest) idx outputs events invs =
        .ok { messages := [{ content := .fromStr ("unexpected error during tool call: " ++ s)
                             name := tc.name
                             tool_call_id := tc.id
                             request_id := env.request_id
                             selected_agent := env.selected_agent
                             confirmation := if im.isSome then some true else none
                             interrupt_message := im
                             mcp_response := none }]
              events := events ++ hEvents
              invocations := invs ++ [(tc.name, tc.args)] }) := by
  refine ⟨?_, ?_, ?_⟩
  · intro hh
    simp [runToolCalls, hh]
  · intro s hh hexec
    simp [runToolCalls, hh, hexec]
  · intro s hh hexec
    simp [runToolCalls, hh, hexec]

/-- Witness for claim C10: a two call batch whose first call succeeds and
whose second raises a ToolException returns only the error message; the
message of the first call is discarded although its invocation happened. -/
theorem batch_short_circuit_discards_witness :
    runToolCalls demoBatchEnv [demoOkCall, demoFailCall] 0 [] [] [] =
      .ok { messages := [{ content := .fromStr "boom"
                           name := "failingTool"
                           tool_call_id := "c2"
                           request_id := "req-2"
                           selected_agent := none
                           confirmation := none
                           interrupt_message := none
                           mcp_response := none }]
            events := []
            invocations := [("workingTool", []), ("failingTool", [])] } := by
  have hstep : runToolCalls demoBatchEnv [demoOkCall, demoFailCall] 0 [] [] [] =
      runToolCalls demoBatchEnv [demoFailCall] 0 [demoOkMsg] [] [("workingTool", [])] := rfl
  have h := (batch_short_circuit_discards demoBatchEnv demoFailCall [] 0
      [demoOkMsg] [] [("workingTool", [])] none [] 0).2.1 "boom" rfl rfl
  rw [hstep, h]
  rfl

/-- Claim C8: tool result post processing unwraps a non empty list whose
first element is a mapping with a text field to that text before further
processing; a result parsed as an object with a uiContext key emits the ui
side channel note, uses the value at the llm key, or the whole structure
lowered to a string when compound, as model facing content, and emits one
telemetry event per entry of a docLinks list; an unparseable result is
passed through unchanged with no events. -/
theorem tool_result_postprocessing (parse : String → Option JVal) (dumps : JVal → String) :
    (∀ (s : String) (fields : List (String × PyVal)) (restItems : List PyVal),
      fields.lookup "text" = some (.pstr s) →
      process_tool_result parse dumps (.rlist (.pdict fields :: restItems)) =
        process_tool_result parse dumps (.rstr s)) ∧
    (∀ (s : String) (fields : List (String × JVal)) (u : JVal),
      parse s = some (.jobj fields) → fields.lookup "uiContext" = some u →
      ((fields.lookup "docLinks" = none →
        process_tool_result parse dumps (.rstr s) =
          .ok { content := convert_to_string_if_needed dumps
                  ((fields.lookup "llm").getD (.jobj fields))
                mcp_response := some ("<mcp-response>" ++ dumps u ++ "</mcp-response>")
                events := [Event.ui_context ("<mcp-response>" ++ dumps u ++ "</mcp-response>")] }) ∧
      (∀ links : List JVal, fields.lookup "docLinks" = some (.jarr links) →
        process_tool_result parse dumps (.rstr s) =
          .ok { content := convert_to_string_if_needed dumps
                  ((fields.lookup "llm").getD (.jobj fields))
                mcp_response := some ("<mcp-response>" ++ dumps u ++ "</mcp-response>")
                events := Event.ui_context ("<mcp-response>" ++ dumps u ++ "</mcp-response>") ::
                  links.map Event.dock_link }))) ∧
    (∀ s : String, parse s = none →
      process_tool_result parse dumps (.rstr s) =
        .ok { content := .fromStr s, mcp_response := none, events := [] }) := by
  refine ⟨?_, ?_, ?_⟩
  · intro s fields restItems htext
    simp only [process_tool_result]
    rw [htext]
  · intro s fields u hparse hui
    constructor
    · intro hdl
      simp only [process_tool_result, process_tool_string, hparse, hui, hdl]
    · intro links hdl
      simp only [process_tool_result, process_tool_string, hparse, hui, hdl, pyIter]
      rfl
  · intro s hparse
    simp only [process_tool_result, process_tool_string, hparse]

/-- Witness for claim C8: a list wrapped payload parsing to an object with
uiContext, llm and docLinks keys yields the llm value as content, the ui
side channel note, and one dock link event per entry; an unparseable string
passes through unchanged. -/
theorem tool_result_postprocessing_witness :
    (process_tool_result demoParse demoDumps (.rlist [.pdict [("text", .pstr "payload")]]) =
      .ok { content := .fromStr "hello"
            mcp_response := some "<mcp-response>J</mcp-response>"
            events := [Event.ui_context "<mcp-response>J</mcp-response>",
                       Event.dock_link (.jstr "l1"), Event.dock_link (.jstr "l2")] }) ∧
    (process_tool_result demoParse demoDumps (.rstr "opaque text") =
      .ok { content := .fromStr "opaque text", mcp_response := none, events := [] }) := by
  constructor
  · have ha := (tool_result_postprocessing demoParse demoDumps).1 "payload"
      [("text", .pstr "payload")] [] rfl
    have hb := ((tool_result_postprocessing demoParse demoDumps).2.1 "payload"
      demoParsedObj (.jobj []) rfl rfl).2 [.jstr "l1", .jstr "l2"] rfl
    rw [ha, hb]
    rfl
  · exact (tool_result_postprocessing demoParse demoDumps).2.2 "opaque text" rfl

end RancherAgent
